import Mathlib

/-!
Verification of the RANSAC polynomial fitter (src/algorithms/ransacpoly.py)
against its design specification.

Shallow embedding notes:
* Numeric values are modelled as rationals; numpy floating point is modelled
  as exact arithmetic.
* The numpy least-squares solver polyfit is a parameter of the embedding
  (type Polyfit); a none result models a solver failure, which the source
  tolerates (it guards a None result and catches per-trial exceptions).
  Concrete runs instantiate it with polyfit1 (the exact least-squares
  solution for order-1 fits; its inputs in the runs below are always
  non-degenerate) or with polyfit1full (which extends polyfit1 with the
  minimum-norm solution that numpy lstsq returns on a rank-deficient
  order-1 sample, where numpy only issues a RankWarning and never raises).
* The per-trial random index draw (np.random.randint) is modelled as an
  explicit stream rnd : Nat -> List Nat giving the drawn indices of each
  trial.  np.random.randint raises ValueError when the dataset is empty;
  this raise happens outside the try/except of the trial body and is
  modelled by the FitOutcome.raised result.
* Elementwise numpy operations on two arrays are modelled as requiring
  equal lengths (a mismatch raises inside the try/except and the trial is
  skipped); the numpy length-1 broadcasting corner is not modelled and no
  theorem below exercises it.
* Console prints of the source are modelled as explicit outcome/message
  values; the error taxonomy of the spec supplies the constructor names.
-/

namespace RansacPoly

/-- An argument passed to set_2d_data, as the type checks of the source see it:
a list or numpy array whose dtype is int or float (numSeq, carrying its
elements), a list or numpy array of any other dtype (badSeq), or a value
that is not a list or numpy array at all (nonSeq). -/
inductive PyVal where
  | numSeq (vals : List ℚ)
  | badSeq
  | nonSeq
deriving DecidableEq

/-- True iff the value passes the type check of the source for data arrays. -/
def PyVal.isNumSeq : PyVal → Bool
  | .numSeq _ => true
  | _ => false

/-- Validation messages of set_2d_data.  The first four model the four
print statements of the source; lengthMismatch is the additional error
state named by the spec (the source never emits it). -/
inductive SetMsg where
  | invalidXElems
  | invalidXType
  | invalidYElems
  | invalidYType
  | lengthMismatch
deriving DecidableEq

/-- Result states of fit.  uninitializedData and noFitFound model the two
print-and-return paths of the source, success the silent path;
insufficientData is the additional state named by the spec (the source
never emits it); raised models an uncaught Python exception escaping fit. -/
inductive FitOutcome where
  | uninitializedData
  | insufficientData
  | noFitFound
  | success
  | raised
deriving DecidableEq

/-- Constructor configuration: nr_tries, max_dif, min_percent. -/
structure Cfg where
  nr_tries : Nat
  max_dif : ℚ
  min_percent : ℚ
deriving DecidableEq

/-- The mutable fields of a RansacPoly instance: __x, __y, __fit_params,
__sel_idx (None is modelled by none). -/
structure RState where
  x : Option (List ℚ)
  y : Option (List ℚ)
  fit_params : Option (List ℚ)
  sel_idx : Option (List Bool)
deriving DecidableEq

/-- The state right after __init__. -/
def initState : RState := ⟨none, none, none, none⟩

/-- set_2d_data: each argument is type-checked and stored independently;
an argument that fails its check leaves the corresponding field unchanged
and produces a message (a print in the source). -/
def set_2d_data (x y : PyVal) (s : RState) : RState × List SetMsg :=
  let s1 := match x with
    | .numSeq v => ({ s with x := some v }, ([] : List SetMsg))
    | .badSeq => (s, [SetMsg.invalidXElems])
    | .nonSeq => (s, [SetMsg.invalidXType])
  let s2 := match y with
    | .numSeq v => ({ s1.1 with y := some v }, ([] : List SetMsg))
    | .badSeq => (s1.1, [SetMsg.invalidYElems])
    | .nonSeq => (s1.1, [SetMsg.invalidYType])
  (s2.1, s1.2 ++ s2.2)

/-- np.polynomial.polynomial.polyval: evaluate a polynomial given by its
coefficient list (ascending powers) at x, by the Horner rule. -/
def polyval (c : List ℚ) (x : ℚ) : ℚ :=
  c.foldr (fun a acc => a + x * acc) 0

/-- Type of the least-squares solver np.polynomial.polynomial.polyfit:
sampled x values, sampled y values, polynomial order; none models a solver
failure (the source skips the trial on a None result or an exception). -/
def Polyfit : Type := List ℚ → List ℚ → Nat → Option (List ℚ)

/-- Exact least-squares fit of order 1 (the closed form of the normal
equations over ℚ), modelling np.polynomial.polynomial.polyfit for order 1
on non-degenerate inputs; outside that domain (all x equal, or empty) it
returns none and is not a faithful model of numpy, so every concrete run
below that uses polyfit1 stays on non-degenerate samples. -/
def polyfit1 : Polyfit := fun xs ys ord =>
  if ord = 1 then
    let m : ℚ := xs.length
    let sx := xs.sum
    let sy := ys.sum
    let sxx := (xs.map (fun a => a * a)).sum
    let sxy := ((xs.zip ys).map (fun p => p.1 * p.2)).sum
    let det := m * sxx - sx * sx
    if det = 0 then none
    else some [(sy * sxx - sx * sxy) / det, (m * sxy - sx * sy) / det]
  else none

/-- np.polynomial.polynomial.polyfit for order 1 including the
rank-deficient case.  On a sample with at least two distinct x values it
is the exact least-squares solution (as polyfit1).  On a non-empty sample
with all x equal, numpy builds the Vandermonde matrix, scales each column
to unit norm (a zero column keeps scale 1), lets SVD-based lstsq return
the minimum-norm solution of the scaled consistent-in-the-mean system,
and unscales; it issues only a RankWarning, never an exception, so the
trial is not skipped.  For common value c of the x entries and mean ybar
of the y entries this gives the coefficients [ybar/2, ybar/(2c)] when
c is nonzero (their fitted value at c is exactly ybar) and [ybar, 0]
when c = 0.  The order-1 determinant m*sxx - sx^2 vanishes exactly when
all x entries are equal, so that test selects the degenerate branch.
An empty sample makes numpy raise (caught by the per-trial handler),
modelled by none. -/
def polyfit1full : Polyfit := fun xs ys ord =>
  if ord = 1 then
    if xs.length = 0 then none
    else
      let m : ℚ := xs.length
      let sx := xs.sum
      let sy := ys.sum
      let sxx := (xs.map (fun a => a * a)).sum
      let sxy := ((xs.zip ys).map (fun p => p.1 * p.2)).sum
      let det := m * sxx - sx * sx
      if det = 0 then
        let c := sx / m
        let ybar := sy / m
        if c = 0 then some [ybar, 0]
        else some [ybar / 2, ybar / (2 * c)]
      else some [(sy * sxx - sx * sxy) / det, (m * sxy - sx * sy) / det]
  else none

/-- Line 80 of the source: the elementwise inlier mask
abs(polyval(x, fit_params) - y) < max_dif. -/
def candMask (max_dif : ℚ) (fp : List ℚ) (xs ys : List ℚ) : List Bool :=
  (xs.zip ys).map (fun p => decide (|polyval fp p.1 - p.2| < max_dif))

/-- np.count_nonzero on a boolean mask. -/
def countTrue (m : List Bool) : Nat := m.count true

/-- np.count_nonzero(self.__sel_idx), which is 0 when __sel_idx is None. -/
def countBest (sel : Option (List Bool)) : Nat :=
  match sel with
  | none => 0
  | some m => countTrue m

/-- Lines 85-87 of the source: test_size and test_best. -/
def acceptTest (min_percent : ℚ) (n : Nat) (count : Nat)
    (sel : Option (List Bool)) : Bool :=
  (decide ((count : ℚ) > min_percent * n)) &&
    (sel.isNone || decide (count > countBest sel))

/-- One iteration of the trial loop (lines 67-90), transforming __sel_idx.
Index errors, solver failures and length mismatches fall into the
try/except and leave __sel_idx unchanged. -/
def trial (cfg : Cfg) (pf : Polyfit) (ord : Nat) (xs ys : List ℚ)
    (idx : List Nat) (sel : Option (List Bool)) : Option (List Bool) :=
  if (idx.all (fun j => j < xs.length) && idx.all (fun j => j < ys.length)) then
    match pf (idx.map (fun j => xs.getD j 0)) (idx.map (fun j => ys.getD j 0)) ord with
    | none => sel
    | some fp =>
      if fp.length < ord + 1 then sel
      else if xs.length = ys.length then
        if acceptTest cfg.min_percent xs.length
            (countTrue (candMask cfg.max_dif fp xs ys)) sel
        then some (candMask cfg.max_dif fp xs ys)
        else sel
      else sel
  else sel

/-- Boolean-mask indexing x[mask] (used in the final refit, line 94). -/
def maskSelect (xs : List ℚ) (m : List Bool) : List ℚ :=
  ((xs.zip m).filter (fun p => p.2)).map (fun p => p.1)

/-- fit (lines 58-99).  Returns the outcome together with the new state.
When the data is empty and at least one trial runs, np.random.randint
raises after __sel_idx was already reset (line 65): outcome raised. -/
def fit (cfg : Cfg) (pf : Polyfit) (rnd : Nat → List Nat) (ord : Nat)
    (s : RState) : FitOutcome × RState :=
  match s.x, s.y with
  | some xs, some ys =>
    if xs.length = 0 ∧ 1 ≤ cfg.nr_tries then
      (.raised, { s with sel_idx := none })
    else
      let sel := (List.range cfg.nr_tries).foldl
        (fun acc i => trial cfg pf ord xs ys (rnd i) acc) none
      match sel with
      | some m =>
        (.success, { s with sel_idx := some m,
                            fit_params := pf (maskSelect xs m) (maskSelect ys m) ord })
      | none => (.noFitFound, { s with sel_idx := none, fit_params := none })
  | _, _ => (.uninitializedData, s)

/-- get_fit_params (line 101). -/
def get_fit_params (s : RState) : Option (List ℚ) := s.fit_params

/-- get_inliers (line 105). -/
def get_inliers (s : RState) : Option (List Bool) := s.sel_idx

/-- The concrete dataset used by several witnesses below: two points pin
an order-1 candidate to the zero line, four points at x = 0 sit inside the
tolerance band asymmetrically. -/
def xC9 : List ℚ := [10, -10, 0, 0, 0, 0]

/-- The y values of the concrete dataset. -/
def yC9 : List ℚ := [0, 0, 9/10, 9/10, 9/10, -9/10]

/-- Configuration for the concrete runs: 1 trial, tolerance 1, minimum
inlier fraction 1/2. -/
def cfgC9 : Cfg := ⟨1, 1, 1/2⟩

/-- Instance state after set_2d_data on the concrete dataset. -/
def stC9 : RState := ⟨some xC9, some yC9, none, none⟩

/-- Random stream drawing the first two points in every trial. -/
def rndC9 : Nat → List Nat := fun _ => [0, 1]

/-- State after the concrete fit run: all six points are inliers of the
candidate zero line, and the final refit over them is the line 3/10. -/
def stC9r : RState :=
  ⟨some xC9, some yC9, some [3/10, 0], some [true, true, true, true, true, true]⟩

end RansacPoly

open RansacPoly

/-- The boolean acceptance test of lines 85-87, as a proposition: strict
inequality against the size threshold, and strictly more inliers than the
incumbent (or no incumbent). -/
theorem acceptTest_eq_true_iff (mp : ℚ) (n c : Nat) (sel : Option (List Bool)) :
    acceptTest mp n c sel = true ↔
      ((c : ℚ) > mp * n ∧ (sel = none ∨ c > countBest sel)) := by
  cases sel <;> simp [acceptTest]

/-- Claim C1: in every trial that reaches the evaluation stage, the
candidate mask replaces the stored best iff its inlier count strictly
exceeds min_percent times N and strictly exceeds the incumbent count (or
no incumbent exists); in particular a tie never replaces the incumbent. -/
theorem c1_trial_acceptance (cfg : Cfg) (pf : Polyfit) (ord : Nat)
    (xs ys : List ℚ) (idx : List Nat) (sel : Option (List Bool)) (fp : List ℚ)
    (hix : idx.all (fun j => j < xs.length) = true)
    (hiy : idx.all (fun j => j < ys.length) = true)
    (hpf : pf (idx.map (fun j => xs.getD j 0)) (idx.map (fun j => ys.getD j 0)) ord
      = some fp)
    (hfp : ord + 1 ≤ fp.length)
    (hlen : xs.length = ys.length) :
    (trial cfg pf ord xs ys idx sel =
      if ((countTrue (candMask cfg.max_dif fp xs ys) : ℚ) > cfg.min_percent * xs.length
          ∧ (sel = none ∨ countTrue (candMask cfg.max_dif fp xs ys) > countBest sel))
      then some (candMask cfg.max_dif fp xs ys) else sel)
    ∧ (∀ m, sel = some m →
        countTrue (candMask cfg.max_dif fp xs ys) = countTrue m →
        trial cfg pf ord xs ys idx sel = sel) := by
  have hguard : (idx.all (fun j => j < xs.length)
      && idx.all (fun j => j < ys.length)) = true := by
    simp [hix, hiy]
  have htr : trial cfg pf ord xs ys idx sel =
      if acceptTest cfg.min_percent xs.length
          (countTrue (candMask cfg.max_dif fp xs ys)) sel
      then some (candMask cfg.max_dif fp xs ys) else sel := by
    unfold trial
    rw [if_pos hguard, hpf]
    show (if fp.length < ord + 1 then sel
      else if xs.length = ys.length then
        if acceptTest cfg.min_percent xs.length
            (countTrue (candMask cfg.max_dif fp xs ys)) sel
        then some (candMask cfg.max_dif fp xs ys) else sel
      else sel) = _
    rw [if_neg (by omega : ¬ fp.length < ord + 1), if_pos hlen]
  constructor
  · rw [htr]
    exact if_congr (acceptTest_eq_true_iff cfg.min_percent xs.length
      (countTrue (candMask cfg.max_dif fp xs ys)) sel) rfl rfl
  · intro m hm hcnt
    rw [htr, if_neg]
    subst hm
    simp [acceptTest, countBest, hcnt]

/-- Witness for C1 at a concrete trial: two exact points, candidate the
zero line, both inliers, no incumbent, hence accepted. -/
theorem c1_witness :
    trial cfgC9 polyfit1 1 [0, 1] [0, 0] [0, 1] none = some [true, true] := by
  have h := (c1_trial_acceptance cfgC9 polyfit1 1 [0, 1] [0, 0] [0, 1] none [0, 0]
    (by decide) (by decide) (by norm_num [polyfit1]) (by norm_num) (by norm_num)).1
  rw [h]
  norm_num [cfgC9, candMask, polyval, countTrue, countBest, abs_lt]

/-- The mask of line 80 has the length of the shorter input. -/
theorem candMask_length (md : ℚ) (fp : List ℚ) (xs ys : List ℚ) :
    (candMask md fp xs ys).length = min xs.length ys.length := by
  simp [candMask]

/-- Pointwise reading of the mask of line 80. -/
theorem candMask_getD (md : ℚ) (fp : List ℚ) :
    ∀ (xs ys : List ℚ) (i : Nat), i < xs.length → i < ys.length →
      ((candMask md fp xs ys).getD i false = true ↔
        |polyval fp (xs.getD i 0) - ys.getD i 0| < md)
  | [], _, i, h1, _ => by simp at h1
  | _ :: _, [], i, _, h2 => by simp at h2
  | a :: xs, b :: ys, 0, _, _ => by simp [candMask]
  | a :: xs, b :: ys, i + 1, h1, h2 => by
    have ih := candMask_getD md fp xs ys i (by simpa using h1) (by simpa using h2)
    simpa [candMask] using ih

/-- np.count_nonzero of a boolean mask is the number of true entries. -/
theorem countTrue_eq_filter_length (m : List Bool) :
    countTrue m = (m.filter (fun b => b)).length := by
  induction m with
  | nil => rfl
  | cons a t ih =>
    cases a <;> simp [countTrue, List.count_cons, List.filter_cons] at ih ⊢ <;> omega

/-- Claim C3: the candidate model is evaluated against all N points, a
point is an inlier iff its absolute residual is strictly below the
tolerance, the mask has length exactly N, and the count used by the
acceptance test is the number of true entries. -/
theorem c3_mask_pointwise (md : ℚ) (fp : List ℚ) (xs ys : List ℚ) (n : Nat)
    (hx : xs.length = n) (hy : ys.length = n) :
    (candMask md fp xs ys).length = n ∧
    (∀ i, i < n →
      ((candMask md fp xs ys).getD i false = true ↔
        |polyval fp (xs.getD i 0) - ys.getD i 0| < md)) ∧
    countTrue (candMask md fp xs ys) =
      ((candMask md fp xs ys).filter (fun b => b)).length := by
  refine ⟨?_, ?_, countTrue_eq_filter_length _⟩
  · rw [candMask_length, hx, hy, Nat.min_self]
  · intro i hi
    exact candMask_getD md fp xs ys i (hx ▸ hi) (hy ▸ hi)

/-- Witness for C3 at a concrete mask of length 2. -/
theorem c3_witness :
    (candMask 1 [0, 0] [0, 1] [0, 0]).length = 2 ∧
    (∀ i, i < 2 →
      ((candMask 1 [0, 0] [0, 1] [0, 0]).getD i false = true ↔
        |polyval [0, 0] (([0, 1] : List ℚ).getD i 0) - ([0, 0] : List ℚ).getD i 0| < 1)) ∧
    countTrue (candMask 1 [0, 0] [0, 1] [0, 0]) =
      ((candMask 1 [0, 0] [0, 1] [0, 0]).filter (fun b => b)).length :=
  c3_mask_pointwise 1 [0, 0] [0, 1] [0, 0] 2 rfl rfl

/-- Counterexample to claim C5: two type-valid numeric sequences of
different lengths are both stored by set_2d_data and no message (in
particular no length-mismatch failure) is signalled. -/
theorem c5_counterexample :
    ([1, 2] : List ℚ).length ≠ ([1, 2, 3] : List ℚ).length ∧
    (set_2d_data (.numSeq [1, 2]) (.numSeq [1, 2, 3]) initState).1.x = some [1, 2] ∧
    (set_2d_data (.numSeq [1, 2]) (.numSeq [1, 2, 3]) initState).1.y = some [1, 2, 3] ∧
    (set_2d_data (.numSeq [1, 2]) (.numSeq [1, 2, 3]) initState).2 = [] :=
  ⟨by decide, rfl, rfl, rfl⟩

/-- Claim C5 as amended: set_2d_data performs no length comparison; two
type-valid numeric sequences are both stored even when their lengths
differ, and no message is signalled. -/
theorem c5_amended (xs ys : List ℚ) (s : RState) (h : xs.length ≠ ys.length) :
    (set_2d_data (.numSeq xs) (.numSeq ys) s).1.x = some xs ∧
    (set_2d_data (.numSeq xs) (.numSeq ys) s).1.y = some ys ∧
    (set_2d_data (.numSeq xs) (.numSeq ys) s).2 = [] :=
  ⟨rfl, rfl, rfl⟩

/-- Witness for the amended C5. -/
theorem c5_witness :
    (set_2d_data (.numSeq [1, 2]) (.numSeq [1, 2, 3]) initState).1.x = some [1, 2] ∧
    (set_2d_data (.numSeq [1, 2]) (.numSeq [1, 2, 3]) initState).1.y = some [1, 2, 3] ∧
    (set_2d_data (.numSeq [1, 2]) (.numSeq [1, 2, 3]) initState).2 = [] :=
  c5_amended [1, 2] [1, 2, 3] initState (by decide)

/-- Counterexample to claim C6: a valid x together with an invalid y
leaves x stored and y unset: the half-set state the claim rules out. -/
theorem c6_counterexample :
    PyVal.nonSeq.isNumSeq = false ∧
    (set_2d_data (.numSeq [1, 2]) .nonSeq initState).1.x = some [1, 2] ∧
    (set_2d_data (.numSeq [1, 2]) .nonSeq initState).1.y = none :=
  ⟨rfl, rfl, rfl⟩

/-- Claim C6 as amended: set_2d_data validates and stores the two inputs
independently; when one input is invalid and the other valid, the valid
one is stored and the invalid one leaves its field unchanged, so a
half-set state is reachable. -/
theorem c6_amended (xs : List ℚ) (b : PyVal) (s : RState)
    (hb : b.isNumSeq = false) :
    (set_2d_data (.numSeq xs) b s).1.x = some xs ∧
    (set_2d_data (.numSeq xs) b s).1.y = s.y ∧
    (set_2d_data b (.numSeq xs) s).1.y = some xs ∧
    (set_2d_data b (.numSeq xs) s).1.x = s.x := by
  cases b <;> simp_all [set_2d_data, PyVal.isNumSeq]

/-- Witness for the amended C6. -/
theorem c6_witness :
    (set_2d_data (.numSeq [1, 2]) .nonSeq initState).1.x = some [1, 2] ∧
    (set_2d_data (.numSeq [1, 2]) .nonSeq initState).1.y = initState.y ∧
    (set_2d_data .nonSeq (.numSeq [1, 2]) initState).1.y = some [1, 2] ∧
    (set_2d_data .nonSeq (.numSeq [1, 2]) initState).1.x = initState.x :=
  c6_amended [1, 2] .nonSeq initState rfl

/-- fit returns early with uninitializedData when either array is unset. -/
theorem fit_uninit (cfg : Cfg) (pf : Polyfit) (rnd : Nat → List Nat) (ord : Nat)
    (s : RState) (h : s.x = none ∨ s.y = none) :
    fit cfg pf rnd ord s = (.uninitializedData, s) := by
  obtain ⟨sx, sy, sfp, ssel⟩ := s
  simp only at h
  cases sx with
  | none => simp [fit]
  | some xs =>
    cases sy with
    | none => simp [fit]
    | some ys => simp at h

/-- fit raises out of the first trial (np.random.randint on an empty
array) when the data is empty and at least one trial runs; __sel_idx was
already reset on line 65, __fit_params keeps its previous value. -/
theorem fit_raised (cfg : Cfg) (pf : Polyfit) (rnd : Nat → List Nat) (ord : Nat)
    (s : RState) (xs ys : List ℚ) (hx : s.x = some xs) (hy : s.y = some ys)
    (hxs : xs.length = 0) (ht : 1 ≤ cfg.nr_tries) :
    fit cfg pf rnd ord s = (.raised, { s with sel_idx := none }) := by
  obtain ⟨sx, sy, sfp, ssel⟩ := s
  simp only at hx hy
  subst hx; subst hy
  simp only [fit]
  rw [if_pos ⟨hxs, ht⟩]

/-- On initialized, non-raising input, fit is the trial loop followed by
either the final refit (success) or the reset of both result fields
(noFitFound). -/
theorem fit_run_eq (cfg : Cfg) (pf : Polyfit) (rnd : Nat → List Nat) (ord : Nat)
    (s : RState) (xs ys : List ℚ) (hx : s.x = some xs) (hy : s.y = some ys)
    (hn : ¬ (xs.length = 0 ∧ 1 ≤ cfg.nr_tries)) :
    fit cfg pf rnd ord s =
      (match (List.range cfg.nr_tries).foldl
          (fun acc i => trial cfg pf ord xs ys (rnd i) acc) none with
      | some m => (FitOutcome.success,
          { s with sel_idx := some m,
                   fit_params := pf (maskSelect xs m) (maskSelect ys m) ord })
      | none => (FitOutcome.noFitFound,
          { s with sel_idx := none, fit_params := none })) := by
  obtain ⟨sx, sy, sfp, ssel⟩ := s
  simp only at hx hy
  subst hx; subst hy
  simp only [fit]
  rw [if_neg hn]

/-- Claim C2: when fit succeeds, the published coefficients are the result
of one more least-squares call over the entire inlier set of the winning
mask (boolean-mask indexing of both arrays), as returned by
get_fit_params. -/
theorem c2_refit_on_full_inlier_set (cfg : Cfg) (pf : Polyfit)
    (rnd : Nat → List Nat) (ord : Nat) (s s2 : RState) (xs ys : List ℚ)
    (hx : s.x = some xs) (hy : s.y = some ys)
    (h : fit cfg pf rnd ord s = (FitOutcome.success, s2)) :
    ∃ m, get_inliers s2 = some m ∧
      get_fit_params s2 = pf (maskSelect xs m) (maskSelect ys m) ord := by
  by_cases hn : xs.length = 0 ∧ 1 ≤ cfg.nr_tries
  · rw [fit_raised cfg pf rnd ord s xs ys hx hy hn.1 hn.2] at h
    simp at h
  · rw [fit_run_eq cfg pf rnd ord s xs ys hx hy hn] at h
    rcases hfold : (List.range cfg.nr_tries).foldl
        (fun acc i => trial cfg pf ord xs ys (rnd i) acc) none with _ | m
    · rw [hfold] at h; simp at h
    · rw [hfold] at h
      simp only [Prod.mk.injEq] at h
      obtain ⟨-, h2⟩ := h
      subst h2
      exact ⟨m, rfl, rfl⟩

/-- Witness for C2 at the concrete dataset: the winning mask selects all
six points although only two were sampled, and the published coefficients
are the least-squares refit over all six. -/
theorem c2_witness :
    ∃ m, get_inliers stC9r = some m ∧
      get_fit_params stC9r = polyfit1 (maskSelect xC9 m) (maskSelect yC9 m) 1 :=
  c2_refit_on_full_inlier_set cfgC9 polyfit1 rndC9 1 stC9 stC9r xC9 yC9 rfl rfl
    (by norm_num [fit, cfgC9, stC9, stC9r, xC9, yC9, rndC9, trial, polyfit1,
      candMask, polyval, acceptTest, countTrue, countBest, maskSelect, abs_lt,
      List.range_succ])

/-- Counterexample to claim C4: a one-point dataset with requested order 1
(so N = 1 < k + 1 = 2) produces no insufficient-data failure: the trial
loop runs, its rank-deficient sample [5, 5] is still solved by numpy
least squares (coefficients [3/2, 3/10], fitting the point exactly with
only a RankWarning), the single point is an inlier, the trial passes the
acceptance test (1 > 1/2 times 1, no incumbent), and fit ends in success
with the refit over the one-point inlier set. -/
theorem c4_counterexample :
    ([5] : List ℚ).length < 1 + 1 ∧
    fit ⟨1, 1, 1/2⟩ polyfit1full (fun _ => [0, 0]) 1
      ⟨some [5], some [3], none, none⟩ =
      (FitOutcome.success, ⟨some [5], some [3], some [3/2, 3/10], some [true]⟩) ∧
    FitOutcome.success ≠ FitOutcome.insufficientData := by
  refine ⟨by norm_num, ?_, by decide⟩
  norm_num [fit, trial, polyfit1full, List.range_succ, acceptTest, candMask, polyval,
    countTrue, countBest, maskSelect, abs_lt]

/-- Claim C4 as amended: fit performs no minimum-size check; on any
non-empty dataset with fewer points than k + 1 it still runs the trial
loop and ends in success or noFitFound, never in an insufficient-data
state. -/
theorem c4_amended (cfg : Cfg) (pf : Polyfit) (rnd : Nat → List Nat) (ord : Nat)
    (s : RState) (xs ys : List ℚ) (hx : s.x = some xs) (hy : s.y = some ys)
    (hn : 1 ≤ xs.length) (hk : xs.length < ord + 1) :
    (fit cfg pf rnd ord s).1 = FitOutcome.success ∨
    (fit cfg pf rnd ord s).1 = FitOutcome.noFitFound := by
  have hn0 : ¬ (xs.length = 0 ∧ 1 ≤ cfg.nr_tries) := by omega
  rw [fit_run_eq cfg pf rnd ord s xs ys hx hy hn0]
  rcases hfold : (List.range cfg.nr_tries).foldl
      (fun acc i => trial cfg pf ord xs ys (rnd i) acc) none with _ | m <;> simp

/-- Witness for the amended C4 at the one-point dataset, with the
rank-deficiency-faithful solver. -/
theorem c4_witness :
    (fit ⟨1, 1, 1/2⟩ polyfit1full (fun _ => [0, 0]) 1
      ⟨some [5], some [3], none, none⟩).1 = FitOutcome.success ∨
    (fit ⟨1, 1, 1/2⟩ polyfit1full (fun _ => [0, 0]) 1
      ⟨some [5], some [3], none, none⟩).1 = FitOutcome.noFitFound :=
  c4_amended ⟨1, 1, 1/2⟩ polyfit1full (fun _ => [0, 0]) 1
    ⟨some [5], some [3], none, none⟩ [5] [3] rfl rfl (by norm_num) (by norm_num)

/-- Claim C7: when fit ends in noFitFound, both stored result fields are
cleared and the accessors return the unavailable signal (None); the
accessors are total functions and raise nothing. -/
theorem c7_no_fit_unavailable (cfg : Cfg) (pf : Polyfit) (rnd : Nat → List Nat)
    (ord : Nat) (s s2 : RState)
    (h : fit cfg pf rnd ord s = (FitOutcome.noFitFound, s2)) :
    get_fit_params s2 = none ∧ get_inliers s2 = none := by
  rcases hsx : s.x with _ | xs
  · rw [fit_uninit cfg pf rnd ord s (Or.inl hsx)] at h; simp at h
  rcases hsy : s.y with _ | ys
  · rw [fit_uninit cfg pf rnd ord s (Or.inr hsy)] at h; simp at h
  by_cases hn : xs.length = 0 ∧ 1 ≤ cfg.nr_tries
  · rw [fit_raised cfg pf rnd ord s xs ys hsx hsy hn.1 hn.2] at h
    simp at h
  · rw [fit_run_eq cfg pf rnd ord s xs ys hsx hsy hn] at h
    rcases hfold : (List.range cfg.nr_tries).foldl
        (fun acc i => trial cfg pf ord xs ys (rnd i) acc) none with _ | m
    · rw [hfold] at h
      simp only [Prod.mk.injEq] at h
      obtain ⟨-, h2⟩ := h
      subst h2
      exact ⟨rfl, rfl⟩
    · rw [hfold] at h; simp at h

/-- Witness for C7: a run whose only trial is rejected by the size test. -/
theorem c7_witness :
    get_fit_params (⟨some [0, 1], some [0, 10], none, none⟩ : RState) = none ∧
    get_inliers (⟨some [0, 1], some [0, 10], none, none⟩ : RState) = none :=
  c7_no_fit_unavailable ⟨1, 1, 1⟩ polyfit1 (fun _ => [0, 1]) 1
    ⟨some [0, 1], some [0, 10], none, none⟩
    ⟨some [0, 1], some [0, 10], none, none⟩
    (by norm_num [fit, trial, polyfit1, List.range_succ, acceptTest, candMask,
      polyval, countTrue, countBest, abs_lt])

/-- Claim C8: a fit call that fails with uninitializedData leaves the
whole state intact; one that fails with noFitFound replaces the stored
result completely (both fields cleared, data untouched); and an
insufficient-data outcome never occurs.  In no listed failure state do
coefficients of one call survive next to a mask of another. -/
theorem c8_failure_atomicity (cfg : Cfg) (pf : Polyfit) (rnd : Nat → List Nat)
    (ord : Nat) (s : RState) (o : FitOutcome) (s2 : RState)
    (h : fit cfg pf rnd ord s = (o, s2)) :
    (o = FitOutcome.uninitializedData → s2 = s) ∧
    (o = FitOutcome.noFitFound →
      get_fit_params s2 = none ∧ get_inliers s2 = none ∧
      s2.x = s.x ∧ s2.y = s.y) ∧
    o ≠ FitOutcome.insufficientData := by
  rcases hsx : s.x with _ | xs
  · rw [fit_uninit cfg pf rnd ord s (Or.inl hsx)] at h
    simp only [Prod.mk.injEq] at h
    obtain ⟨ho, hs⟩ := h
    subst ho
    exact ⟨fun _ => hs.symm, by simp, by simp⟩
  rcases hsy : s.y with _ | ys
  · rw [fit_uninit cfg pf rnd ord s (Or.inr hsy)] at h
    simp only [Prod.mk.injEq] at h
    obtain ⟨ho, hs⟩ := h
    subst ho
    exact ⟨fun _ => hs.symm, by simp, by simp⟩
  by_cases hn : xs.length = 0 ∧ 1 ≤ cfg.nr_tries
  · rw [fit_raised cfg pf rnd ord s xs ys hsx hsy hn.1 hn.2] at h
    simp only [Prod.mk.injEq] at h
    obtain ⟨ho, hs⟩ := h
    subst ho
    exact ⟨by simp, by simp, by simp⟩
  · rw [fit_run_eq cfg pf rnd ord s xs ys hsx hsy hn] at h
    rcases hfold : (List.range cfg.nr_tries).foldl
        (fun acc i => trial cfg pf ord xs ys (rnd i) acc) none with _ | m <;>
      rw [hfold] at h <;> simp only [Prod.mk.injEq] at h <;>
      obtain ⟨ho, hs⟩ := h <;> subst ho <;> subst hs
    · exact ⟨by simp, fun _ => ⟨rfl, rfl, hsx, hsy⟩, by simp⟩
    · exact ⟨by simp, by simp, by simp⟩

/-- Witness for C8: fit before set_2d_data leaves the fresh state intact. -/
theorem c8_witness :
    (FitOutcome.uninitializedData = FitOutcome.uninitializedData →
      initState = initState) ∧
    (FitOutcome.uninitializedData = FitOutcome.noFitFound →
      get_fit_params initState = none ∧ get_inliers initState = none ∧
      initState.x = initState.x ∧ initState.y = initState.y) ∧
    FitOutcome.uninitializedData ≠ FitOutcome.insufficientData :=
  c8_failure_atomicity cfgC9 polyfit1 rndC9 1 initState
    FitOutcome.uninitializedData initState rfl

/-- Claim C9: on the concrete dataset the candidate of the winning trial is the
zero line and its mask (all six points) is what get_inliers publishes; the
published coefficients are the refit 3/10 + 0 x, the mask computed from
them would differ, and the point at index 5, marked true, has absolute
residual 6/5 at least the tolerance 1 under the published coefficients. -/
theorem c9_mask_not_recomputed :
    polyfit1 [10, -10] [0, 0] 1 = some [0, 0] ∧
    fit cfgC9 polyfit1 rndC9 1 stC9 = (FitOutcome.success, stC9r) ∧
    get_inliers stC9r = some (candMask 1 [0, 0] xC9 yC9) ∧
    get_fit_params stC9r = some [3/10, 0] ∧
    candMask 1 [3/10, 0] xC9 yC9 ≠ candMask 1 [0, 0] xC9 yC9 ∧
    (candMask 1 [0, 0] xC9 yC9).getD 5 false = true ∧
    ¬ (|polyval [3/10, 0] (xC9.getD 5 0) - yC9.getD 5 0| < 1) := by
  refine ⟨by norm_num [polyfit1], ?_, ?_, rfl, ?_, ?_, ?_⟩
  · norm_num [fit, cfgC9, stC9, stC9r, xC9, yC9, rndC9, trial, polyfit1, candMask,
      polyval, acceptTest, countTrue, countBest, maskSelect, abs_lt, List.range_succ]
  · norm_num [stC9r, get_inliers, candMask, xC9, yC9, polyval, abs_lt]
  · norm_num [candMask, xC9, yC9, polyval, abs_lt]
  · norm_num [candMask, xC9, yC9, polyval, abs_lt]
  · norm_num [xC9, yC9, polyval, abs_lt]

/-- Claim C10: set_2d_data accepts two empty numeric sequences without any
message, and a subsequent fit (with at least one trial) ends in the raised
state, the uncaught sampler error, rather than in any of the defined
result states. -/
theorem c10_empty_data_raises (cfg : Cfg) (pf : Polyfit) (rnd : Nat → List Nat)
    (ord : Nat) (s : RState) (h : 1 ≤ cfg.nr_tries) :
    (set_2d_data (.numSeq []) (.numSeq []) s).2 = [] ∧
    (set_2d_data (.numSeq []) (.numSeq []) s).1.x = some [] ∧
    (set_2d_data (.numSeq []) (.numSeq []) s).1.y = some [] ∧
    (fit cfg pf rnd ord (set_2d_data (.numSeq []) (.numSeq []) s).1).1 =
      FitOutcome.raised ∧
    (FitOutcome.raised ≠ FitOutcome.success ∧
      FitOutcome.raised ≠ FitOutcome.noFitFound ∧
      FitOutcome.raised ≠ FitOutcome.uninitializedData ∧
      FitOutcome.raised ≠ FitOutcome.insufficientData) := by
  refine ⟨rfl, rfl, rfl, ?_, by decide⟩
  rw [fit_raised cfg pf rnd ord _ [] [] rfl rfl rfl h]

/-- Witness for C10 with a one-trial configuration. -/
theorem c10_witness :
    (set_2d_data (.numSeq []) (.numSeq []) initState).2 = [] ∧
    (set_2d_data (.numSeq []) (.numSeq []) initState).1.x = some [] ∧
    (set_2d_data (.numSeq []) (.numSeq []) initState).1.y = some [] ∧
    (fit cfgC9 polyfit1 rndC9 1
      (set_2d_data (.numSeq []) (.numSeq []) initState).1).1 =
      FitOutcome.raised ∧
    (FitOutcome.raised ≠ FitOutcome.success ∧
      FitOutcome.raised ≠ FitOutcome.noFitFound ∧
      FitOutcome.raised ≠ FitOutcome.uninitializedData ∧
      FitOutcome.raised ≠ FitOutcome.insufficientData) :=
  c10_empty_data_raises cfgC9 polyfit1 rndC9 1 initState (by decide)
